import Mathlib

/-!
Verification of the gne-network-dashboard batch port-remediation service.

The definitions below are a shallow embedding of the Python sources:
  * `src/api/models.py`         — `ResponseModel` and its `to_dict`
  * `src/api/routes.py`         — ping-result classification, `verify_port_connectivity`,
                                  `get_locations_from_data_file`, `reset_down_port_only`
  * `src/service/SSHConnection.py` — `extract_ip_address`, `reset_port_poe`,
                                  `retrieve_ssh_info_from_config`
  * `src/routine/ResetDownOnly.py` — `ping_host`

External effects (subprocess ping runs, the paramiko SSH session, the Excel
reader, environment variables) are modelled as oracles supplied in a `World`
structure; the control flow that consumes them is translated line by line
from the source.
-/

deriving instance DecidableEq for Except

namespace Gnet

/-! ## Character / string helpers (ASCII semantics of the Python string ops used) -/

/-- Word character (regex `\w`) as used by the IPv4 regex in `extract_ip_address`
(inputs at the call sites are ASCII). -/
def isWordCh (c : Char) : Bool :=
  (65 ≤ c.toNat && c.toNat ≤ 90) || (97 ≤ c.toNat && c.toNat ≤ 122) ||
  (48 ≤ c.toNat && c.toNat ≤ 57) || c = '_'

def isDigitCh (c : Char) : Bool := 48 ≤ c.toNat && c.toNat ≤ 57

/-- Whitespace stripped by Python `str.strip()` (ASCII subset). -/
def isWsCh (c : Char) : Bool :=
  c = ' ' || c = '\t' || c = '\n' || c = '\r' || c.toNat = 11 || c.toNat = 12

def pyStripList (l : List Char) : List Char :=
  ((l.dropWhile isWsCh).reverse.dropWhile isWsCh).reverse

/-- Python `str.strip()`. -/
def pyStrip (s : String) : String := String.mk (pyStripList s.data)

/-- ASCII lowering, the effect of Python `str.lower()` on the ping output
markers matched by the code (`ttl=`, `ms`, `time=`, `時間=`). -/
def lowerCh (c : Char) : Char :=
  if 65 ≤ c.toNat && c.toNat ≤ 90 then Char.ofNat (c.toNat + 32) else c

def pyLower (s : String) : String := String.mk (s.data.map lowerCh)

def prefixOfCh : List Char → List Char → Bool
  | [], _ => true
  | _ :: _, [] => false
  | a :: as, b :: bs => a = b && prefixOfCh as bs

/-- Python's substring containment `needle in haystack`. -/
def hasSubCh (n : List Char) : List Char → Bool
  | [] => n.isEmpty
  | c :: r => prefixOfCh n (c :: r) || hasSubCh n r

def hasSub (needle haystack : String) : Bool := hasSubCh needle.data haystack.data

/-- Python `text.split(sep)` for a one-character separator. -/
def splitOnCh (sep : Char) : List Char → List (List Char)
  | [] => [[]]
  | c :: r =>
    let ps := splitOnCh sep r
    if c = sep then [] :: ps
    else
      match ps with
      | p :: rest => (c :: p) :: rest
      | [] => [[c]]

/-! ## Reachability probing (routes.py lines 357–398, 846–869; ResetDownOnly.py 34–67)

A probe run is an oracle value: the `ping` subprocess either terminates with a
return code and captured stdout, raises `subprocess.TimeoutExpired`, or raises
some other exception. -/

inductive ProbeRes where
  | ran (returncode : Int) (stdout : String)
  | timedOut
  | raised (msg : String)
  deriving DecidableEq, Repr

/-- The ping-output classification of routes.py (lines 860–869, repeated at
383–391, 1115–1125, 1424–1433, 1537–1545): success requires returncode 0 AND a
`ttl=` marker, or an `ms` timing marker together with `time=` / `時間=`, in the
lower-cased output. -/
def pingSuccessOf (returncode : Int) (stdout : String) : Bool :=
  if returncode = 0 then
    let out := pyLower stdout
    if hasSub "ttl=" out then true
    else if hasSub "ms" out && (hasSub "time=" out || hasSub "時間=" out) then true
    else false
  else false

/-- Model of `verify_port_connectivity` (routes.py 357–398): runs ping with `LC_ALL=C`,
classifies with `pingSuccessOf`; `subprocess.TimeoutExpired` and any other
exception both yield `False`. -/
def verify_port_connectivity : ProbeRes → Bool
  | .ran rc out => pingSuccessOf rc out
  | .timedOut => false
  | .raised _ => false

/-- Model of `ping_host` from `src/routine/ResetDownOnly.py` (lines 34–67): returns `True`
iff the ping process exits with code 0 — no output-marker check and no
locale forcing; timeout and any exception yield `False`. -/
def ping_host : ProbeRes → Bool
  | .ran rc _ => rc = 0
  | .timedOut => false
  | .raised _ => false

/-! ## Remote port remediation (`reset_port_poe`, SSHConnection.py 169–291)

The attempt is driven by an oracle describing where (if anywhere) the first
exception is raised: at `ssh.connect`, or later during the shell / exec /
close sequence after a successful connect.  The embedding records whether the
session was opened and whether `ssh.close()` was reached. -/

inductive SSHError where
  | authRejected
  | protocolError
  | connTimeout
  | connRefused
  | unresolvable
  | other (msg : String)
  deriving DecidableEq, Repr

inductive SSHRun where
  | completes
  | connectRaises (e : SSHError)
  | sessionRaises (e : SSHError)
  deriving DecidableEq, Repr

structure SessionTrace where
  opened : Bool
  closed : Bool
  deriving DecidableEq, Repr

/-- Model of `reset_port_poe`: the success path runs disable / enable command scripts, the
final status query, then `ssh.close()` and returns `True`.  Every `except`
clause (AuthenticationException, SSHException, socket.timeout,
ConnectionRefusedError, socket.gaierror, generic Exception) prints a message
and returns `False`; none of them closes the client, and there is no
`finally` block. -/
def reset_port_poe : SSHRun → Bool × SessionTrace
  | .completes => (true, ⟨true, true⟩)
  | .connectRaises _ => (false, ⟨false, false⟩)
  | .sessionRaises _ => (false, ⟨true, false⟩)

/-! ## ResponseModel (`src/api/models.py`) -/

inductive PyVal where
  | str (s : String)
  | int (n : Int)
  | bool (b : Bool)
  | pyNone
  deriving DecidableEq, Repr

/-- A Python `Dict[str, Any]` payload. -/
abbrev PyDict := List (String × PyVal)

/-- Truthiness of the `data` field: `None` and the empty dict are falsy. -/
def pyTruthyData : Option PyDict → Bool
  | none => false
  | some d => !d.isEmpty

structure ResponseModel where
  success : Bool
  message : String
  data : Option PyDict := none
  deriving DecidableEq

/-- The serialized form: `data` field `none` means the key is absent. -/
structure SerializedResponse where
  success : Bool
  message : String
  data : Option PyDict
  deriving DecidableEq

/-- Model of `ResponseModel.to_dict` (models.py 11–19): always emits `success` and
`message`; emits the `data` key only under `if self.data:`. -/
def ResponseModel.to_dict (m : ResponseModel) : SerializedResponse :=
  { success := m.success
    message := m.message
    data := if pyTruthyData m.data then m.data else none }

/-! ## IPv4 extraction (`extract_ip_address`, SSHConnection.py 11–59)

The function runs `re.findall` with
`\b(?:(?:25[0-5]|2[0-4][0-9]|[01]?[0-9][0-9]?)\.){3}(?:25[0-5]|2[0-4][0-9]|[01]?[0-9][0-9]?)\b`,
falls back to the same pattern without the `\b` anchors when that finds
nothing, takes the first match, and finally validates it with
`socket.inet_aton`.  The matcher below implements exactly the backtracking
semantics of that pattern: octet alternatives are tried in the regex's
alternation order (`25[0-5]`, then `2[0-4][0-9]`, then `[01]?[0-9][0-9]?`
with greedy optional groups), and the scan tries each start position from
the left, resuming after the end of a match. -/

/-- The octet alternation's candidate parses at the head of `s`, as
`(consumed, rest)` pairs in regex preference order: the three-character
alternatives `25[0-5]`, `2[0-4][0-9]` and `[01][0-9][0-9]` (mutually
exclusive, so their relative order is immaterial), then the greedy
`[0-9][0-9]` and `[0-9]` parses of `[01]?[0-9][0-9]?`. -/
def octetCands (s : List Char) : List (List Char × List Char) :=
  (match s with
   | a :: b :: c :: r =>
     (if a = '2' ∧ b = '5' ∧ (48 ≤ c.toNat ∧ c.toNat ≤ 53) then [([a, b, c], r)] else []) ++
     (if a = '2' ∧ (48 ≤ b.toNat ∧ b.toNat ≤ 52) ∧ isDigitCh c then [([a, b, c], r)] else []) ++
     (if (a = '0' ∨ a = '1') ∧ isDigitCh b ∧ isDigitCh c then [([a, b, c], r)] else [])
   | _ => []) ++
  (match s with
   | a :: b :: r => if isDigitCh a ∧ isDigitCh b then [([a, b], r)] else []
   | _ => []) ++
  (match s with
   | a :: r => if isDigitCh a then [([a], r)] else []
   | _ => [])

/-- Trailing boundary check (regex `\b`) looking right: the next character, if any, must not be a word
character (the matched text always ends in a digit). -/
def boundaryOk : List Char → Bool
  | [] => true
  | c :: _ => !isWordCh c

/-- Match `k` octets separated by dots at the head of the input, with full
backtracking across octet candidates; when `bnd` is set the trailing `\b`
is part of the match condition. -/
def matchOctets (bnd : Bool) : Nat → List Char → Option (List Char × List Char)
  | 0, _ => none
  | 1, s =>
    (octetCands s).findSome? fun p =>
      if bnd then (if boundaryOk p.2 then some p else none) else some p
  | k + 2, s =>
    (octetCands s).findSome? fun p =>
      match p.2 with
      | d :: r2 =>
        if d = '.' then (matchOctets bnd (k + 1) r2).map fun q => (p.1 ++ '.' :: q.1, q.2)
        else none
      | [] => none

/-- The `re.findall` scan: try a match at every position left to right; `prevW`
tracks whether the previous character is a word character (for the leading
`\b`, which the pattern needs because it starts with a digit); after a match
the scan resumes at the first unconsumed character. -/
def scanIPs (bnd : Bool) : Nat → Bool → List Char → List (List Char)
  | 0, _, _ => []
  | _ + 1, _, [] => []
  | fuel + 1, prevW, c :: rest =>
    if !bnd || !prevW then
      match matchOctets bnd 4 (c :: rest) with
      | some (m, r) => m :: scanIPs bnd fuel true r
      | none => scanIPs bnd fuel (isWordCh c) rest
    else scanIPs bnd fuel (isWordCh c) rest

def re_findall_ipv4 (bnd : Bool) (s : List Char) : List (List Char) :=
  scanIPs bnd (s.length + 1) false s

/-- Model of `socket.inet_aton`, from its documented C behavior for the
inputs produced here (dotted strings of decimal digit groups): four
dot-separated components, each parsed with automatic base detection — a
leading `0` switches the component to octal, so a multi-digit component
starting with `0` that contains `8` or `9` fails — and each valid component
must be ≤ 255. -/
def inetAtonPart (p : List Char) : Option Nat :=
  match p with
  | [] => none
  | c :: rest =>
    if !(c :: rest).all isDigitCh then none
    else if c = '0' && rest ≠ [] then
      if rest.all (fun d => 48 ≤ d.toNat && d.toNat ≤ 55) then
        some ((c :: rest).foldl (fun a d => a * 8 + (d.toNat - 48)) 0)
      else none
    else some ((c :: rest).foldl (fun a d => a * 10 + (d.toNat - 48)) 0)

def inetAtonOk (l : List Char) : Bool :=
  match (splitOnCh '.' l).mapM inetAtonPart with
  | some [a, b, c, d] => a ≤ 255 && b ≤ 255 && c ≤ 255 && d ≤ 255
  | _ => false

/-- The two `re.findall` calls of `extract_ip_address`: the word-boundary
scan, then — only when it found nothing — the boundary-free fallback. -/
def findIPMatches (t : List Char) : List (List Char) :=
  if (re_findall_ipv4 true t).isEmpty then re_findall_ipv4 false t
  else re_findall_ipv4 true t

/-- Model of `extract_ip_address` (SSHConnection.py 11–59).  Python control flow:
empty/None input raises; otherwise strip, run the word-boundary findall,
fall back to the boundary-free findall, raise if still no match, else take
the first match and validate with `inet_aton` (raising on failure). -/
def extract_ip_address (text : String) : Except String String :=
  if text = "" then .error "Empty or None IP address value"
  else
    match findIPMatches (pyStripList text.data) with
    | [] => .error ("No valid IP address found in: " ++ pyStrip text)
    | ip :: _ =>
      if inetAtonOk ip then .ok (String.mk ip)
      else .error ("Invalid IP address format: " ++ String.mk ip)

/-! ## Location directory

`get_locations_from_data_file` (routes.py 18–49) reads the `Hardware list`
sheet; `retrieve_ssh_info_from_config` (SSHConnection.py 322–368) reads the
`Port assignment` sheet.  A sheet is modelled as either unreadable (the
Excel read raises) or a table of rows whose cells are `Option String`
(`none` = a NaN cell dropped by `dropna`); a flag records whether the
required columns exist. -/

structure HwRow where
  location : Option String
  ip : Option String
  deriving DecidableEq, Repr

inductive HwSource where
  | unreadable (msg : String)
  | table (hasLocationCol : Bool) (hasIpCol : Bool) (rows : List HwRow)
  deriving DecidableEq, Repr

def hwRowComplete (r : HwRow) : Bool := r.location.isSome && r.ip.isSome

/-- Model of `df['Location'].unique().tolist()`: first-occurrence order, duplicates
removed (`seen` accumulates the values already emitted). -/
def uniqueAux (seen : List String) : List String → List String
  | [] => []
  | x :: r => if x ∈ seen then uniqueAux seen r else x :: uniqueAux (x :: seen) r

def uniqueKeepOrder (l : List String) : List String := uniqueAux [] l

/-- Model of `get_locations_from_data_file`: any read exception yields an error
string; missing `Location`/`IP` columns yield an error; rows with NaN in
either column are dropped; an empty location list yields the error
`"No locations found in data file"`; otherwise the locations and the
cleaned rows are returned. -/
def get_locations_from_data_file (src : HwSource) :
    Except String (List String × List HwRow) :=
  match src with
  | .unreadable m => .error ("Failed to read data file: " ++ m)
  | .table hasLoc hasIp rows =>
    if !(hasLoc && hasIp) then .error "Location or IP column not found in data file"
    else
      let dfClean := rows.filter hwRowComplete
      let locations := uniqueKeepOrder (dfClean.filterMap (·.location))
      if locations.isEmpty then .error "No locations found in data file"
      else .ok (locations, dfClean)

structure PortRow where
  location : Option String
  sshIp : Option String
  switchPort : Option String
  deriving DecidableEq, Repr

inductive PortSource where
  | unreadable (msg : String)
  | table (hasRequiredCols : Bool) (rows : List PortRow)
  deriving DecidableEq, Repr

def portRowComplete (r : PortRow) : Bool :=
  r.location.isSome && r.sshIp.isSome && r.switchPort.isSome

/-- Python `switch_port.split('/')[-1]`. -/
def lastSegment (s : String) : String :=
  String.mk ((splitOnCh '/' s.data).getLastD [])

structure SSHInfo where
  hostname : String
  port : Int
  target_port : String
  deriving DecidableEq, Repr

/-- Model of `retrieve_ssh_info_from_config` (SSHConnection.py 322–368).  An
unreadable sheet or missing required columns make `read_excel` / `dropna`
raise (`.error`, caught by the callers' per-target handlers); a location
with no complete matching row returns `None`; a ValueError (or any other
exception) from `extract_ip_address` is caught, logged, and turns into
`None`; otherwise the record carries the extracted IP, SSH port 22, and the
final path segment of the `Switch port` cell. -/
def retrieve_ssh_info_from_config (src : PortSource) (locName : String) :
    Except String (Option SSHInfo) :=
  match src with
  | .unreadable m => .error m
  | .table hasCols rows =>
    if !hasCols then .error "KeyError: required column missing"
    else
      let dfClean := rows.filter portRowComplete
      match dfClean.find? (fun r => r.location = some locName) with
      | none => .ok none
      | some row =>
        match extract_ip_address (row.sshIp.getD "") with
        | .error _ => .ok none
        | .ok ip =>
          .ok (some { hostname := ip, port := 22
                      target_port := lastSegment (row.switchPort.getD "") })

/-! ## The down-only batch endpoint (`reset_down_port_only`, routes.py 754–1028)

External state consumed by the endpoint:
  * JSON request body — an optional `timeout` value fed to `int(...)`;
  * environment — `SSH_USERNAME`, `SSH_PASSWORD`,
    `BATCH_VERIFICATION_DELAY_SECONDS`;
  * the two spreadsheet sheets;
  * the ping subprocess at sweep time and at verification time;
  * the paramiko session behavior for each location's reset attempt.

The run result exposes, besides the HTTP response, the ordered trace of
externally visible actions (sweep probes, reset calls, the settle sleep,
verification probes) and the contents of the `reset_successful` list as it
stood at the end of the sweep (the code later mutates its entries in
place). -/

/-- A JSON value handed to `int(...)`: either something that converts to an
integer, or something whose conversion raises `ValueError`/`TypeError`. -/
inductive PyIntLike where
  | int (n : Int)
  | nonNumeric
  deriving DecidableEq, Repr

def pyToInt : PyIntLike → Option Int
  | .int n => some n
  | .nonNumeric => none

structure Request where
  /-- `data.get('timeout', 10)`; the default is modelled as `.int 10`. -/
  timeout : PyIntLike := .int 10
  deriving DecidableEq, Repr

structure Env where
  sshUsername : Option String
  sshPassword : Option String
  /-- `BATCH_VERIFICATION_DELAY_SECONDS`; `none` means unset (default "30"). -/
  batchVerificationDelay : Option Nat
  deriving DecidableEq, Repr

/-- Truthiness test `if not ssh_username or not ssh_password`: unset and empty are falsy. -/
def credsOf (e : Env) : Option (String × String) :=
  match e.sshUsername, e.sshPassword with
  | some u, some p => if u ≠ "" && p ≠ "" then some (u, p) else none
  | _, _ => none

structure World where
  hwSource : HwSource
  portSource : PortSource
  /-- Result of the sweep-time `subprocess.run(['ping', ip], ...)`, by IP. -/
  sweepProbe : String → ProbeRes
  /-- Behavior of the paramiko session for this location's reset attempt. -/
  sshRun : String → SSHRun
  /-- Result of the verification-time ping, by IP. -/
  verifyProbe : String → ProbeRes

/- Per-target record dicts, mirroring the dict literals in routes.py. -/

structure DownEntry where
  location : String
  ip : String
  status : String
  deriving DecidableEq, Repr

structure NotDownEntry where
  location : String
  ip : String
  status : String
  deriving DecidableEq, Repr

structure AttemptEntry where
  location : String
  ip : String
  target_port : String
  deriving DecidableEq, Repr

structure SuccessEntry where
  location : String
  ip : String
  target_port : String
  status : String
  verified : Bool
  deriving DecidableEq, Repr

structure FailEntry where
  location : String
  ip : Option String
  target_port : Option String
  error : String
  deriving DecidableEq, Repr

/-- Externally visible actions, in program order. -/
inductive Ev where
  | sweepPing (location : String)
  | resetCall (location : String)
  | settleDelay (seconds : Nat)
  | verifyPing (location : String)
  deriving DecidableEq, Repr

def isDelayEv : Ev → Bool
  | .settleDelay _ => true
  | _ => false

def isVerifyEv : Ev → Bool
  | .verifyPing _ => true
  | _ => false

structure SweepSt where
  down : List DownEntry := []
  attempted : List AttemptEntry := []
  successes : List SuccessEntry := []
  failures : List FailEntry := []
  notDown : List NotDownEntry := []
  trace : List Ev := []
  deriving Repr

/-- One iteration of the sweep loop (routes.py 834–955) for `loc`. -/
def processLocation (w : World) (df : List HwRow) (st : SweepSt) (loc : String) :
    SweepSt :=
  match df.find? (fun r => r.location = some loc) with
  | none => st
  | some row =>
    let ip := pyStrip (row.ip.getD "")
    match w.sweepProbe ip with
    | .timedOut =>
      { st with down := st.down ++ [⟨loc, ip, "ping_timeout"⟩]
                trace := st.trace ++ [.sweepPing loc] }
    | .raised m =>
      { st with failures := st.failures ++ [⟨loc, none, none, "Error during processing: " ++ m⟩]
                trace := st.trace ++ [.sweepPing loc] }
    | .ran rc out =>
      if pingSuccessOf rc out then
        { st with notDown := st.notDown ++ [⟨loc, ip, "reachable"⟩]
                  trace := st.trace ++ [.sweepPing loc] }
      else
        let st : SweepSt := { st with down := st.down ++ [⟨loc, ip, "unreachable"⟩]
                                      trace := st.trace ++ [.sweepPing loc] }
        match retrieve_ssh_info_from_config w.portSource loc with
        | .error m =>
          { st with failures := st.failures ++ [⟨loc, none, none, "Exception during reset: " ++ m⟩] }
        | .ok none =>
          { st with failures := st.failures ++ [⟨loc, none, none, "SSH configuration not found"⟩] }
        | .ok (some cfg) =>
          let st : SweepSt := { st with
            attempted := st.attempted ++ [⟨loc, ip, cfg.target_port⟩]
            trace := st.trace ++ [.resetCall loc] }
          if (reset_port_poe (w.sshRun loc)).1 then
            { st with successes :=
                st.successes ++ [⟨loc, ip, cfg.target_port, "reset_successful", false⟩] }
          else
            { st with failures :=
                st.failures ++ [⟨loc, some ip, some cfg.target_port, "Port reset failed"⟩] }

def downOnlySweep (w : World) (df : List HwRow) (locations : List String) : SweepSt :=
  locations.foldl (processLocation w df) {}

/-- The verification loop (routes.py 967–983): for each entry of
`reset_successful`, ping and set `entry['verified']` in place. -/
def verifyFold (w : World) (entries : List SuccessEntry) :
    List SuccessEntry × List Ev :=
  entries.foldl
    (fun acc e =>
      let v := verify_port_connectivity (w.verifyProbe e.ip)
      (acc.1 ++ [{ e with verified := v }], acc.2 ++ [.verifyPing e.location]))
    ([], [])

structure BatchData where
  total_checked : Nat
  down_locations : List DownEntry
  reset_attempted : List AttemptEntry
  reset_successful : List SuccessEntry
  reset_failed : List FailEntry
  not_down : List NotDownEntry
  deriving DecidableEq, Repr

structure RunOut where
  success : Bool
  status : Nat
  message : String
  data : Option BatchData
  trace : List Ev
  /-- Contents of the `reset_successful` list at the end of the sweep,
  before the verification loop mutates its entries. -/
  sweepSuccesses : List SuccessEntry
  deriving DecidableEq, Repr

/-- Model of `reset_down_port_only` (routes.py 754–1028). -/
def reset_down_port_only (env : Env) (w : World) (req : Request) : RunOut :=
  match pyToInt req.timeout with
  | none =>
    { success := false, status := 400
      message := "Invalid timeout value. Must be an integer between 1 and 300 seconds"
      data := none, trace := [], sweepSuccesses := [] }
  | some t =>
    if t ≤ 0 ∨ t > 300 then
      { success := false, status := 400
        message := "Invalid timeout value. Must be an integer between 1 and 300 seconds"
        data := none, trace := [], sweepSuccesses := [] }
    else
      match credsOf env with
      | none =>
        { success := false, status := 500
          message := "SSH credentials not configured. Please set SSH_USERNAME and SSH_PASSWORD in .env file"
          data := none, trace := [], sweepSuccesses := [] }
      | some _ =>
        match get_locations_from_data_file w.hwSource with
        | .error m =>
          { success := false, status := 500, message := m
            data := none, trace := [], sweepSuccesses := [] }
        | .ok (locations, dfClean) =>
          let sweep := downOnlySweep w dfClean locations
          let successfulResets := sweep.successes.length
          if successfulResets > 0 then
            let delay := env.batchVerificationDelay.getD 30
            let (finalSuccesses, vEvs) := verifyFold w sweep.successes
            let overall := sweep.failures.isEmpty || finalSuccesses.length > 0
            { success := overall
              status := if overall then 200 else 500
              message := "Completed port reset scan: " ++ toString successfulResets ++
                " ports reset out of " ++ toString sweep.down.length ++ " unreachable locations"
              data := some
                { total_checked := locations.length
                  down_locations := sweep.down
                  reset_attempted := sweep.attempted
                  reset_successful := finalSuccesses
                  reset_failed := sweep.failures
                  not_down := sweep.notDown }
              trace := sweep.trace ++ [.settleDelay delay] ++ vEvs
              sweepSuccesses := sweep.successes }
          else
            let overall := sweep.failures.isEmpty || successfulResets > 0
            { success := overall
              status := if overall then 200 else 500
              message := "No ports needed resetting: " ++ toString locations.length ++
                " locations checked"
              data := some
                { total_checked := locations.length
                  down_locations := sweep.down
                  reset_attempted := sweep.attempted
                  reset_successful := sweep.successes
                  reset_failed := sweep.failures
                  not_down := sweep.notDown }
              trace := sweep.trace
              sweepSuccesses := sweep.successes }

/-! ## Specification-side predicates

These are written from the spec's wording, independently of the embedding
above, and are used to state the claims. -/

/-- The in-place update that the verification loop performs on one
`reset_successful` entry. -/
def updVerified (w : World) (e : SuccessEntry) : SuccessEntry :=
  { e with verified := verify_port_connectivity (w.verifyProbe e.ip) }

/-- Events that the sweep itself may emit. -/
def sweepEvOnly : Ev → Bool
  | .sweepPing _ => true
  | .resetCall _ => true
  | _ => false

/-- Decimal value of a digit string. -/
def octVal (l : List Char) : Nat :=
  l.foldl (fun a c => a * 10 + (c.toNat - 48)) 0

/-- A well-formed dotted-quad octet: one to three decimal digits with value
at most 255. -/
def isOctetStr (l : List Char) : Bool :=
  decide (l ≠ []) && decide (l.length ≤ 3) && l.all isDigitCh && decide (octVal l ≤ 255)

/-- A well-formed dotted-quad IPv4 string: four octets joined by dots. -/
def isQuadStr (l : List Char) : Bool :=
  match splitOnCh '.' l with
  | [a, b, c, d] => isOctetStr a && isOctetStr b && isOctetStr c && isOctetStr d
  | _ => false

/-- Shape invariant produced by `matchOctets k`: `k` octets joined by
dots. -/
def QuadShape : Nat → List Char → Prop
  | 0, _ => False
  | 1, m => isOctetStr m = true
  | k + 2, m => ∃ o rest, m = o ++ '.' :: rest ∧ isOctetStr o = true ∧ QuadShape (k + 1) rest

/-- All ways of splitting a list into a prefix/suffix pair. -/
def allSplits (l : List Char) : List (List Char × List Char) :=
  (List.range (l.length + 1)).map (fun k => (l.take k, l.drop k))

def hasQuadTokenAux : Bool → List Char → Bool
  | _, [] => false
  | prevW, c :: rest =>
    ((!prevW) && (allSplits (c :: rest)).any (fun p => isQuadStr p.1 && boundaryOk p.2))
    || hasQuadTokenAux (isWordCh c) rest

/-- The claim's notion of a dotted-quad token embedded in text: a
well-formed dotted-quad substring delimited on both sides by a non-word
character or the ends of the string. -/
def hasValidQuadToken (s : String) : Bool := hasQuadTokenAux false s.data

/-- Claim C2 as stated: overall batch success iff at least one remediation
succeeded or no target required remediation (was found unreachable). -/
def claimBatchSuccessIff (r : RunOut) : Prop :=
  ∀ d, r.data = some d →
    (r.success = true ↔ (d.reset_successful ≠ [] ∨ d.down_locations = []))

/-- Claim C5's failure half as stated: on text with no valid dotted-quad
token, extraction fails explicitly. -/
def claimExtractFailsWithoutToken : Prop :=
  ∀ t, hasValidQuadToken t = false → ∃ e, extract_ip_address t = .error e

/-- Claim C8's port half as stated: a returned record never carries an
empty port identifier. -/
def claimNoEmptyPortId (src : PortSource) : Prop :=
  ∀ loc info, retrieve_ssh_info_from_config src loc = .ok (some info) →
    info.target_port ≠ ""

/-- Claim C9 as stated: the success records as they existed at the end of
the sweep are unchanged after batch verification completes. -/
def claimSuccessRecordsUnmutated (r : RunOut) : Prop :=
  ∀ d, r.data = some d → d.reset_successful = r.sweepSuccesses

/-! ## Concrete scenarios used by witnesses and counterexamples -/

/-- An environment with credentials configured and no delay override. -/
def envStd : Env :=
  { sshUsername := some "admin", sshPassword := some "secret"
    batchVerificationDelay := none }

def portSheetStd : PortSource :=
  .table true
    [⟨some "A", some "SW1 10.1.0.1", some "ge-0/0/5"⟩,
     ⟨some "B", some "SW2 10.1.0.2", some "ge-0/0/7"⟩]

/-- Two targets, both unreachable at sweep time, both resets succeed; at
verification time A answers (with a ttl marker) and B stays silent. -/
def worldTwoResets : World :=
  { hwSource := .table true true [⟨some "A", some "10.0.0.1"⟩, ⟨some "B", some "10.0.0.2"⟩]
    portSource := portSheetStd
    sweepProbe := fun _ => .ran 1 "no reply"
    sshRun := fun _ => .completes
    verifyProbe := fun ip =>
      if ip = "10.0.0.1" then .ran 0 "64 bytes from 10.0.0.1: ttl=64 time=1.2 ms"
      else .ran 1 "request timed out" }

/-- A single target whose sweep ping raises `subprocess.TimeoutExpired`. -/
def worldPingTimeout : World :=
  { hwSource := .table true true [⟨some "A", some "10.0.0.9"⟩]
    portSource := portSheetStd
    sweepProbe := fun _ => .timedOut
    sshRun := fun _ => .completes
    verifyProbe := fun _ => .timedOut }

/-- A readable Hardware list sheet with both required columns and zero
complete rows. -/
def worldEmptySheet : World :=
  { hwSource := .table true true []
    portSource := portSheetStd
    sweepProbe := fun _ => .timedOut
    sshRun := fun _ => .completes
    verifyProbe := fun _ => .timedOut }

/-- One unreachable target whose reset succeeds and whose verification ping
answers. -/
def worldOneVerified : World :=
  { hwSource := .table true true [⟨some "A", some "10.0.0.1"⟩]
    portSource := portSheetStd
    sweepProbe := fun _ => .ran 1 "no reply"
    sshRun := fun _ => .completes
    verifyProbe := fun _ => .ran 0 "64 bytes: ttl=64" }

/-- A Port assignment sheet whose only row has a trailing-slash port
descriptor. -/
def portSheetTrailingSlash : PortSource :=
  .table true [⟨some "A", some "1.2.3.4", some "x/"⟩]

/-- An environment with the username unset. -/
def envNoCreds : Env :=
  { sshUsername := none, sshPassword := some "secret", batchVerificationDelay := none }

/-- Directory-level failure conditions of the Hardware list loader: the
source is unreadable, a required column is missing, or no complete row
remains after dropping incomplete ones. -/
def hwDirectoryFails : HwSource → Prop
  | .unreadable _ => True
  | .table hasLoc hasIp rows =>
    ¬(hasLoc = true ∧ hasIp = true) ∨ rows.filter hwRowComplete = []

/-- Conclusion of claim C1, for a run whose preconditions pass and whose
sweep produced at least one successful remediation: the full trace is the
sweep trace, then a single settle-delay of the configured duration
(default 30 s), then exactly one verification probe per successfully
remediated target; the sweep trace holds no delay and no verification
probe; the delay occurs exactly once in the whole run; and the reported
success records are the sweep records upgraded with their verification
outcome. -/
def C1DelayConcl (env : Env) (w : World) (req : Request)
    (locations : List String) (dfClean : List HwRow) : Prop :=
  (reset_down_port_only env w req).trace =
      (downOnlySweep w dfClean locations).trace ++
      [Ev.settleDelay (env.batchVerificationDelay.getD 30)] ++
      (downOnlySweep w dfClean locations).successes.map (fun e => Ev.verifyPing e.location) ∧
  (downOnlySweep w dfClean locations).trace.countP isDelayEv = 0 ∧
  (downOnlySweep w dfClean locations).trace.countP isVerifyEv = 0 ∧
  (reset_down_port_only env w req).trace.countP isDelayEv = 1 ∧
  (reset_down_port_only env w req).data.map (fun d => d.reset_successful) =
    some ((downOnlySweep w dfClean locations).successes.map (updVerified w))

/-- Conclusion of the amended claim C2: the response carries the full
per-target detail; success is equivalent to "no per-target failure was
recorded or at least one remediation succeeded"; and a batch with at least
one remediation attempt and no success is reported failed with status
500. -/
def C2SuccessConcl (env : Env) (w : World) (req : Request)
    (locations : List String) (dfClean : List HwRow) : Prop :=
  ∃ d, (reset_down_port_only env w req).data = some d ∧
    ((reset_down_port_only env w req).success = true ↔
      (d.reset_failed = [] ∨ d.reset_successful ≠ [])) ∧
    d.total_checked = locations.length ∧
    d.down_locations = (downOnlySweep w dfClean locations).down ∧
    d.reset_attempted = (downOnlySweep w dfClean locations).attempted ∧
    d.reset_failed = (downOnlySweep w dfClean locations).failures ∧
    d.not_down = (downOnlySweep w dfClean locations).notDown ∧
    (d.reset_attempted ≠ [] → d.reset_successful = [] →
      (reset_down_port_only env w req).success = false ∧
      (reset_down_port_only env w req).status = 500)

/-- Conclusion of the amended claim C9: at the end of the sweep every
success record carries `verified := false`, and verification then updates
those same records in place, so the reported records are exactly the sweep
records with the `verified` flag overwritten by the verification probe
outcome (the sweep-time state is not preserved). -/
def C9MutationConcl (env : Env) (w : World) (req : Request)
    (locations : List String) (dfClean : List HwRow) : Prop :=
  (reset_down_port_only env w req).sweepSuccesses =
    (downOnlySweep w dfClean locations).successes ∧
  (∀ e ∈ (reset_down_port_only env w req).sweepSuccesses, e.verified = false) ∧
  (reset_down_port_only env w req).data.map (fun d => d.reset_successful) =
    some ((reset_down_port_only env w req).sweepSuccesses.map (updVerified w))

/-! # Theorems -/

theorem findSome_mem {α β : Type} {f : α → Option β} :
    ∀ {l : List α} {b : β}, l.findSome? f = some b → ∃ a ∈ l, f a = some b := by
  intro l
  induction l with
  | nil => intro b h; simp [List.findSome?] at h
  | cons x xs ih =>
    intro b h
    rw [List.findSome?_cons] at h
    cases hx : f x with
    | some v => rw [hx] at h; exact ⟨x, List.mem_cons_self x xs, hx.trans h⟩
    | none =>
      rw [hx] at h
      obtain ⟨a, ha, hfa⟩ := ih h
      exact ⟨a, List.mem_cons_of_mem x ha, hfa⟩

/-- Every candidate parse produced by the octet alternation is a
well-formed octet and consumes a prefix of the input. -/
theorem octetCands_sound {s : List Char} {m r : List Char}
    (h : (m, r) ∈ octetCands s) : isOctetStr m = true ∧ s = m ++ r := by
  have h2 : ('2' : Char).toNat = 50 := rfl
  have h5 : ('5' : Char).toNat = 53 := rfl
  have h0 : ('0' : Char).toNat = 48 := rfl
  have h1 : ('1' : Char).toNat = 49 := rfl
  have oct1 : ∀ a : Char, isDigitCh a = true → isOctetStr [a] = true := by
    intro a ha
    simp only [isDigitCh, Bool.and_eq_true, decide_eq_true_eq] at ha
    simp [isOctetStr, octVal, isDigitCh, List.foldl]
    omega
  have oct2 : ∀ a b : Char, isDigitCh a = true → isDigitCh b = true →
      isOctetStr [a, b] = true := by
    intro a b ha hb
    simp only [isDigitCh, Bool.and_eq_true, decide_eq_true_eq] at ha hb
    simp [isOctetStr, octVal, isDigitCh, List.foldl]
    omega
  have oct3 : ∀ a b c : Char, isDigitCh a = true → isDigitCh b = true →
      isDigitCh c = true →
      (a.toNat - 48) * 100 + (b.toNat - 48) * 10 + (c.toNat - 48) ≤ 255 →
      isOctetStr [a, b, c] = true := by
    intro a b c ha hb hc hv
    simp only [isDigitCh, Bool.and_eq_true, decide_eq_true_eq] at ha hb hc
    simp [isOctetStr, octVal, isDigitCh, List.foldl]
    omega
  rcases s with _ | ⟨a, _ | ⟨b, _ | ⟨c, rest⟩⟩⟩ <;> simp [octetCands] at h
  · obtain ⟨ha, hm, hr⟩ := h
    subst hm; subst hr
    exact ⟨oct1 a ha, rfl⟩
  · rcases h with ⟨⟨ha, hb⟩, hm, hr⟩ | ⟨ha, hm, hr⟩
    · subst hm; subst hr; exact ⟨oct2 a b ha hb, rfl⟩
    · subst hm; subst hr; exact ⟨oct1 a ha, rfl⟩
  · rcases h with ⟨⟨ha, hb, hc1, hc2⟩, hm, hr⟩ | ⟨⟨ha, hb12, hc⟩, hm, hr⟩ |
      ⟨⟨ha, hb, hc⟩, hm, hr⟩ | ⟨⟨ha, hb⟩, hm, hr⟩ | ⟨ha, hm, hr⟩
    · subst hm; subst hr; subst ha; subst hb
      refine ⟨oct3 _ _ _ (by decide) (by decide) ?_ ?_, rfl⟩
      · simp [isDigitCh]; omega
      · rw [h2, h5]; omega
    · obtain ⟨hb1, hb2⟩ := hb12
      subst hm; subst hr; subst ha
      have hcn : 48 ≤ c.toNat ∧ c.toNat ≤ 57 := by
        simpa [isDigitCh] using hc
      refine ⟨oct3 _ _ _ (by decide) ?_ hc ?_, rfl⟩
      · simp [isDigitCh]; omega
      · rw [h2]; omega
    · subst hm; subst hr
      have hbn : 48 ≤ b.toNat ∧ b.toNat ≤ 57 := by
        simpa [isDigitCh] using hb
      have hcn : 48 ≤ c.toNat ∧ c.toNat ≤ 57 := by
        simpa [isDigitCh] using hc
      refine ⟨oct3 _ _ _ ?_ hb hc ?_, rfl⟩
      · rcases ha with ha | ha <;> subst ha <;> decide
      · rcases ha with ha | ha <;> subst ha
        · rw [h0]; omega
        · rw [h1]; omega
    · subst hm; subst hr; exact ⟨oct2 a b ha hb, rfl⟩
    · subst hm; subst hr; exact ⟨oct1 a ha, rfl⟩

/-- Whatever `matchOctets` matches has the `k`-octet dotted shape. -/
theorem matchOctets_sound (bnd : Bool) :
    ∀ (k : Nat) (s m r : List Char), matchOctets bnd k s = some (m, r) → QuadShape k m
  | 0, s, m, r => by simp [matchOctets]
  | 1, s, m, r => by
    intro h
    unfold matchOctets at h
    obtain ⟨p, hp, hfp⟩ := findSome_mem h
    have hoct := (octetCands_sound (by simpa using hp : (p.1, p.2) ∈ octetCands s)).1
    cases bnd with
    | false =>
      simp at hfp
      cases hfp
      simpa [QuadShape] using hoct
    | true =>
      simp at hfp
      obtain ⟨-, hm⟩ := hfp
      rw [hm] at hoct
      simpa [QuadShape] using hoct
  | k + 2, s, m, r => by
    intro h
    unfold matchOctets at h
    obtain ⟨p, hp, hfp⟩ := findSome_mem h
    have hoct := (octetCands_sound (by simpa using hp : (p.1, p.2) ∈ octetCands s)).1
    rcases hrest : p.2 with _ | ⟨d, r2⟩ <;> rw [hrest] at hfp
    · exact absurd hfp (by simp)
    · have hfp' : (if d = '.' then
          Option.map (fun q => (p.1 ++ '.' :: q.1, q.2)) (matchOctets bnd (k + 1) r2)
          else none) = some (m, r) := hfp
      by_cases hd : d = '.'
      · rw [if_pos hd] at hfp'
        subst hd
        simp only [Option.map_eq_some'] at hfp'
        obtain ⟨q, hq, hmq⟩ := hfp'
        have ih := matchOctets_sound bnd (k + 1) r2 q.1 q.2 (by
          cases q; simpa using hq)
        cases hmq
        exact ⟨p.1, q.1, rfl, hoct, ih⟩
      · rw [if_neg hd] at hfp'
        exact absurd hfp' (by simp)

/-- Every string collected by the findall scan is a full quad match. -/
theorem scanIPs_sound (bnd : Bool) :
    ∀ (fuel : Nat) (prevW : Bool) (s m : List Char), m ∈ scanIPs bnd fuel prevW s →
      ∃ s' r, matchOctets bnd 4 s' = some (m, r)
  | 0, prevW, s, m => by simp [scanIPs]
  | fuel + 1, prevW, [], m => by simp [scanIPs]
  | fuel + 1, prevW, c :: rest, m => by
    intro h
    unfold scanIPs at h
    split at h
    · cases hm : matchOctets bnd 4 (c :: rest) with
      | none =>
        rw [hm] at h
        exact scanIPs_sound bnd fuel (isWordCh c) rest m h
      | some p =>
        obtain ⟨m', r'⟩ := p
        rw [hm] at h
        rcases List.mem_cons.mp h with h | h
        · subst h
          exact ⟨c :: rest, r', hm⟩
        · exact scanIPs_sound bnd fuel true r' m h
    · exact scanIPs_sound bnd fuel (isWordCh c) rest m h

theorem splitOnCh_cons_eq (sep c : Char) (r : List Char) :
    splitOnCh sep (c :: r) =
      if c = sep then [] :: splitOnCh sep r
      else
        match splitOnCh sep r with
        | p :: rest => (c :: p) :: rest
        | [] => [[c]] := rfl

theorem splitOnCh_sepFree {sep : Char} :
    ∀ {xs : List Char}, xs.all (fun c => c ≠ sep) = true →
      splitOnCh sep xs = [xs] := by
  intro xs
  induction xs with
  | nil => intro _; rfl
  | cons x r ih =>
    intro hall
    simp only [List.all_cons, Bool.and_eq_true, decide_eq_true_eq] at hall
    rw [splitOnCh_cons_eq, if_neg hall.1, ih (by simpa using hall.2)]

theorem splitOnCh_append {sep : Char} :
    ∀ {xs ys : List Char}, xs.all (fun c => c ≠ sep) = true →
      splitOnCh sep (xs ++ sep :: ys) = xs :: splitOnCh sep ys := by
  intro xs
  induction xs with
  | nil =>
    intro ys _
    rw [List.nil_append, splitOnCh_cons_eq, if_pos rfl]
  | cons x r ih =>
    intro ys hall
    simp only [List.all_cons, Bool.and_eq_true, decide_eq_true_eq] at hall
    rw [List.cons_append, splitOnCh_cons_eq, if_neg hall.1,
      @ih ys (by simpa using hall.2)]

theorem isOctetStr_dotFree {o : List Char} (h : isOctetStr o = true) :
    o.all (fun c => c ≠ '.') = true := by
  simp only [isOctetStr, Bool.and_eq_true, decide_eq_true_eq] at h
  obtain ⟨⟨⟨-, -⟩, hdig⟩, -⟩ := h
  rw [List.all_eq_true] at hdig ⊢
  intro c hc
  have := hdig c hc
  simp only [isDigitCh, Bool.and_eq_true, decide_eq_true_eq] at this
  simp only [decide_eq_true_eq]
  intro hcdot
  subst hcdot
  rw [show ('.' : Char).toNat = 46 from rfl] at this
  omega

/-- The shape invariant at 4 octets is exactly well-formed-quad-ness. -/
theorem quadShape_isQuad {m : List Char} (h : QuadShape 4 m) : isQuadStr m = true := by
  obtain ⟨o1, r1, hm1, ho1, h3⟩ := h
  obtain ⟨o2, r2, hm2, ho2, h2⟩ := h3
  obtain ⟨o3, r3, hm3, ho3, h1⟩ := h2
  subst hm1; subst hm2; subst hm3
  have hs3 : splitOnCh '.' (o3 ++ '.' :: r3) = o3 :: splitOnCh '.' r3 :=
    splitOnCh_append (isOctetStr_dotFree ho3)
  have hs2 : splitOnCh '.' (o2 ++ '.' :: (o3 ++ '.' :: r3)) =
      o2 :: splitOnCh '.' (o3 ++ '.' :: r3) :=
    splitOnCh_append (isOctetStr_dotFree ho2)
  have hs1 : splitOnCh '.' (o1 ++ '.' :: (o2 ++ '.' :: (o3 ++ '.' :: r3))) =
      o1 :: splitOnCh '.' (o2 ++ '.' :: (o3 ++ '.' :: r3)) :=
    splitOnCh_append (isOctetStr_dotFree ho1)
  have h1' : isOctetStr r3 = true := h1
  have hs4 : splitOnCh '.' r3 = [r3] := splitOnCh_sepFree (isOctetStr_dotFree h1')
  unfold isQuadStr
  rw [hs1, hs2, hs3, hs4]
  simp [ho1, ho2, ho3, h1']

/-- Soundness of `extract_ip_address`: every string it returns is a
well-formed dotted quad (each octet 0–255); in particular it is never
empty. -/
theorem extract_ip_address_sound {t s : String}
    (h : extract_ip_address t = .ok s) : isQuadStr s.data = true ∧ s ≠ "" := by
  unfold extract_ip_address at h
  split at h
  · exact absurd h (by simp)
  · rcases hcase : findIPMatches (pyStripList t.data) with _ | ⟨ip, rest⟩ <;>
      rw [hcase] at h
    · exact absurd h (by simp)
    · have hx : ip ∈ findIPMatches (pyStripList t.data) := by
        rw [hcase]; exact List.mem_cons_self ip rest
      have hscan : ∃ bnd s' r, matchOctets bnd 4 s' = some (ip, r) := by
        unfold findIPMatches at hx
        split at hx
        · obtain ⟨s', r, hr⟩ := scanIPs_sound false _ _ _ _ hx
          exact ⟨false, s', r, hr⟩
        · obtain ⟨s', r, hr⟩ := scanIPs_sound true _ _ _ _ hx
          exact ⟨true, s', r, hr⟩
      obtain ⟨bnd, s', r, hr⟩ := hscan
      have hq : isQuadStr ip = true :=
        quadShape_isQuad (matchOctets_sound bnd 4 s' ip r hr)
      have hIf : (if inetAtonOk ip then Except.ok (String.mk ip)
          else Except.error ("Invalid IP address format: " ++ String.mk ip)) =
            Except.ok s := h
      by_cases hao : inetAtonOk ip
      · rw [if_pos hao] at hIf
        injection hIf with hs
        subst hs
        refine ⟨hq, ?_⟩
        intro hemp
        have hnil : ip = [] := congrArg String.data hemp
        subst hnil
        exact absurd hq (by decide)
      · rw [if_neg hao] at hIf
        exact Except.noConfusion hIf

/-- What one sweep iteration appends: only sweep-phase events on the trace,
and per-target records on the result lists, with a remediation attempt
always paired with exactly one success-or-failure record and fresh success
records carrying `verified := false`. -/
theorem processLocation_spec (w : World) (df : List HwRow) (st : SweepSt) (loc : String) :
    ∃ es ds as ss fs,
      (processLocation w df st loc).trace = st.trace ++ es ∧
      es.all sweepEvOnly = true ∧
      (processLocation w df st loc).down = st.down ++ ds ∧
      (processLocation w df st loc).attempted = st.attempted ++ as ∧
      (processLocation w df st loc).successes = st.successes ++ ss ∧
      (processLocation w df st loc).failures = st.failures ++ fs ∧
      as.length ≤ ss.length + fs.length ∧
      (∀ e ∈ ss, e.verified = false) := by
  unfold processLocation
  split
  · exact ⟨[], [], [], [], [], (List.append_nil _).symm, rfl, (List.append_nil _).symm,
      (List.append_nil _).symm, (List.append_nil _).symm, (List.append_nil _).symm,
      by simp, by simp⟩
  · dsimp only
    split
    · refine ⟨_, _, _, _, _, rfl, ?_, rfl, (List.append_nil _).symm, (List.append_nil _).symm,
        (List.append_nil _).symm, ?_, ?_⟩
      · rfl
      · simp
      · simp
    · refine ⟨_, _, _, _, _, rfl, ?_, (List.append_nil _).symm, (List.append_nil _).symm,
        (List.append_nil _).symm, rfl, ?_, ?_⟩
      · rfl
      · simp
      · simp
    · split
      · refine ⟨_, _, _, _, _, rfl, ?_, (List.append_nil _).symm, (List.append_nil _).symm,
          (List.append_nil _).symm, (List.append_nil _).symm, ?_, ?_⟩
        · rfl
        · simp
        · simp
      · split
        · refine ⟨_, _, _, _, _, rfl, ?_, rfl, (List.append_nil _).symm,
            (List.append_nil _).symm, rfl, ?_, ?_⟩
          · rfl
          · simp
          · simp
        · refine ⟨_, _, _, _, _, rfl, ?_, rfl, (List.append_nil _).symm,
            (List.append_nil _).symm, rfl, ?_, ?_⟩
          · rfl
          · simp
          · simp
        · split
          · refine ⟨_, _, _, _, _, by rw [List.append_assoc], ?_, rfl, rfl, rfl,
              (List.append_nil _).symm, ?_, ?_⟩
            · rfl
            · simp
            · simp
          · refine ⟨_, _, _, _, _, by rw [List.append_assoc], ?_, rfl, rfl,
              (List.append_nil _).symm, rfl, ?_, ?_⟩
            · rfl
            · simp
            · simp

/-- The whole sweep preserves the invariants of `processLocation_spec`. -/
theorem sweepFold_spec (w : World) (df : List HwRow) :
    ∀ (locs : List String) (st : SweepSt),
      ∃ es ds as ss fs,
        (locs.foldl (processLocation w df) st).trace = st.trace ++ es ∧
        es.all sweepEvOnly = true ∧
        (locs.foldl (processLocation w df) st).down = st.down ++ ds ∧
        (locs.foldl (processLocation w df) st).attempted = st.attempted ++ as ∧
        (locs.foldl (processLocation w df) st).successes = st.successes ++ ss ∧
        (locs.foldl (processLocation w df) st).failures = st.failures ++ fs ∧
        as.length ≤ ss.length + fs.length ∧
        (∀ e ∈ ss, e.verified = false) := by
  intro locs
  induction locs with
  | nil =>
    intro st
    exact ⟨[], [], [], [], [], (List.append_nil _).symm, rfl, (List.append_nil _).symm,
      (List.append_nil _).symm, (List.append_nil _).symm, (List.append_nil _).symm,
      by simp, by simp⟩
  | cons loc locs ih =>
    intro st
    obtain ⟨es1, ds1, as1, ss1, fs1, ht1, ha1, hd1, hat1, hs1, hf1, hl1, hv1⟩ :=
      processLocation_spec w df st loc
    obtain ⟨es2, ds2, as2, ss2, fs2, ht2, ha2, hd2, hat2, hs2, hf2, hl2, hv2⟩ :=
      ih (processLocation w df st loc)
    refine ⟨es1 ++ es2, ds1 ++ ds2, as1 ++ as2, ss1 ++ ss2, fs1 ++ fs2, ?_, ?_, ?_, ?_, ?_,
      ?_, ?_, ?_⟩
    · rw [List.foldl_cons, ht2, ht1, List.append_assoc]
    · simp only [List.all_append, ha1, ha2, Bool.and_self]
    · rw [List.foldl_cons, hd2, hd1, List.append_assoc]
    · rw [List.foldl_cons, hat2, hat1, List.append_assoc]
    · rw [List.foldl_cons, hs2, hs1, List.append_assoc]
    · rw [List.foldl_cons, hf2, hf1, List.append_assoc]
    · simp only [List.length_append]
      omega
    · intro e he
      rcases List.mem_append.mp he with he | he
      · exact hv1 e he
      · exact hv2 e he

/-- The sweep's trace contains only sweep events, its remediation-attempt
count is bounded by its success/failure records, and every success record
it produces carries `verified := false`. -/
theorem downOnlySweep_spec (w : World) (df : List HwRow) (locs : List String) :
    (downOnlySweep w df locs).trace.all sweepEvOnly = true ∧
    (downOnlySweep w df locs).attempted.length ≤
      (downOnlySweep w df locs).successes.length +
      (downOnlySweep w df locs).failures.length ∧
    (∀ e ∈ (downOnlySweep w df locs).successes, e.verified = false) := by
  obtain ⟨es, ds, as, ss, fs, ht, ha, hd, hat, hs, hf, hl, hv⟩ :=
    sweepFold_spec w df locs {}
  unfold downOnlySweep
  refine ⟨?_, ?_, ?_⟩
  · rw [ht]; simpa using ha
  · rw [hat, hs, hf]; simpa using hl
  · rw [hs]
    intro e he
    exact hv e (by simpa using he)

/-- The verification loop, run from any accumulator. -/
theorem verifyFold_go (w : World) :
    ∀ (entries : List SuccessEntry) (acc : List SuccessEntry × List Ev),
      entries.foldl
        (fun acc e =>
          let v := verify_port_connectivity (w.verifyProbe e.ip)
          (acc.1 ++ [{ e with verified := v }], acc.2 ++ [.verifyPing e.location])) acc
      = (acc.1 ++ entries.map (updVerified w),
         acc.2 ++ entries.map (fun e => Ev.verifyPing e.location)) := by
  intro entries
  induction entries with
  | nil => intro acc; simp
  | cons e rest ih =>
    intro acc
    rw [List.foldl_cons, ih]
    simp [updVerified]

/-- The verification loop maps the in-place `verified` update over the
success records, emitting one verification probe per record, in order. -/
theorem verifyFold_eq (w : World) (entries : List SuccessEntry) :
    verifyFold w entries =
      (entries.map (updVerified w), entries.map (fun e => Ev.verifyPing e.location)) := by
  unfold verifyFold
  rw [verifyFold_go]
  simp

/-- Unfolding of `reset_down_port_only` when the preconditions pass and at
least one remediation succeeded. -/
theorem reset_down_port_only_eq_pos (env : Env) (w : World) (req : Request)
    (t : Int) (up : String × String) (locations : List String) (dfClean : List HwRow)
    (hTo : pyToInt req.timeout = some t)
    (hRange : ¬(t ≤ 0 ∨ t > 300))
    (hCreds : credsOf env = some up)
    (hDir : get_locations_from_data_file w.hwSource = .ok (locations, dfClean))
    (hSucc : (downOnlySweep w dfClean locations).successes ≠ []) :
    reset_down_port_only env w req =
      { success := (downOnlySweep w dfClean locations).failures.isEmpty ||
          decide (((downOnlySweep w dfClean locations).successes.map (updVerified w)).length > 0)
        status := if ((downOnlySweep w dfClean locations).failures.isEmpty ||
          decide (((downOnlySweep w dfClean locations).successes.map (updVerified w)).length > 0) : Bool)
          then 200 else 500
        message := "Completed port reset scan: " ++
          toString (downOnlySweep w dfClean locations).successes.length ++
          " ports reset out of " ++
          toString (downOnlySweep w dfClean locations).down.length ++ " unreachable locations"
        data := some
          { total_checked := locations.length
            down_locations := (downOnlySweep w dfClean locations).down
            reset_attempted := (downOnlySweep w dfClean locations).attempted
            reset_successful := (downOnlySweep w dfClean locations).successes.map (updVerified w)
            reset_failed := (downOnlySweep w dfClean locations).failures
            not_down := (downOnlySweep w dfClean locations).notDown }
        trace := (downOnlySweep w dfClean locations).trace ++
          [.settleDelay (env.batchVerificationDelay.getD 30)] ++
          (downOnlySweep w dfClean locations).successes.map (fun e => Ev.verifyPing e.location)
        sweepSuccesses := (downOnlySweep w dfClean locations).successes } := by
  unfold reset_down_port_only
  rw [hTo]
  dsimp only
  rw [if_neg hRange, hCreds]
  dsimp only
  rw [hDir]
  dsimp only
  rw [if_pos (by simpa [List.length_pos] using hSucc)]
  rw [verifyFold_eq]

/-- Unfolding of `reset_down_port_only` when the preconditions pass and no
remediation succeeded: no settle delay, no verification probes. -/
theorem reset_down_port_only_eq_zero (env : Env) (w : World) (req : Request)
    (t : Int) (up : String × String) (locations : List String) (dfClean : List HwRow)
    (hTo : pyToInt req.timeout = some t)
    (hRange : ¬(t ≤ 0 ∨ t > 300))
    (hCreds : credsOf env = some up)
    (hDir : get_locations_from_data_file w.hwSource = .ok (locations, dfClean))
    (hNone : (downOnlySweep w dfClean locations).successes = []) :
    reset_down_port_only env w req =
      { success := (downOnlySweep w dfClean locations).failures.isEmpty ||
          decide ((downOnlySweep w dfClean locations).successes.length > 0)
        status := if ((downOnlySweep w dfClean locations).failures.isEmpty ||
          decide ((downOnlySweep w dfClean locations).successes.length > 0) : Bool)
          then 200 else 500
        message := "No ports needed resetting: " ++ toString locations.length ++
          " locations checked"
        data := some
          { total_checked := locations.length
            down_locations := (downOnlySweep w dfClean locations).down
            reset_attempted := (downOnlySweep w dfClean locations).attempted
            reset_successful := (downOnlySweep w dfClean locations).successes
            reset_failed := (downOnlySweep w dfClean locations).failures
            not_down := (downOnlySweep w dfClean locations).notDown }
        trace := (downOnlySweep w dfClean locations).trace
        sweepSuccesses := (downOnlySweep w dfClean locations).successes } := by
  unfold reset_down_port_only
  rw [hTo]
  dsimp only
  rw [if_neg hRange, hCreds]
  dsimp only
  rw [hDir]
  dsimp only
  rw [if_neg (by simp [hNone])]

/-- Unfolding of `reset_down_port_only` when the directory load fails. -/
theorem reset_down_port_only_eq_direrr (env : Env) (w : World) (req : Request)
    (t : Int) (up : String × String) (msg : String)
    (hTo : pyToInt req.timeout = some t)
    (hRange : ¬(t ≤ 0 ∨ t > 300))
    (hCreds : credsOf env = some up)
    (hDir : get_locations_from_data_file w.hwSource = .error msg) :
    reset_down_port_only env w req =
      { success := false, status := 500, message := msg
        data := none, trace := [], sweepSuccesses := [] } := by
  unfold reset_down_port_only
  rw [hTo]
  dsimp only
  rw [if_neg hRange, hCreds]
  dsimp only
  rw [hDir]

theorem all_sweep_no_delay_verify {l : List Ev} (h : l.all sweepEvOnly = true) :
    l.countP isDelayEv = 0 ∧ l.countP isVerifyEv = 0 := by
  constructor <;>
    · rw [List.countP_eq_zero]
      intro e he
      have := List.all_eq_true.mp h e he
      cases e <;> simp_all [sweepEvOnly, isDelayEv, isVerifyEv]

theorem map_verifyPing_no_delay (l : List SuccessEntry) :
    (l.map (fun e => Ev.verifyPing e.location)).countP isDelayEv = 0 := by
  rw [List.countP_eq_zero]
  intro e he
  obtain ⟨x, -, rfl⟩ := List.mem_map.mp he
  simp [isDelayEv]

theorem uniqueKeepOrder_eq_nil {l : List String} :
    uniqueKeepOrder l = [] ↔ l = [] := by
  cases l with
  | nil => simp [uniqueKeepOrder, uniqueAux]
  | cons x r => simp [uniqueKeepOrder, uniqueAux]

/-- The Hardware list loader fails exactly on an unreadable source, missing
required columns, or zero complete rows. -/
theorem get_locations_error_iff (src : HwSource) :
    (∃ e, get_locations_from_data_file src = .error e) ↔ hwDirectoryFails src := by
  cases src with
  | unreadable m => simp [get_locations_from_data_file, hwDirectoryFails]
  | table hasLoc hasIp rows =>
    simp only [get_locations_from_data_file, hwDirectoryFails]
    by_cases hcols : hasLoc = true ∧ hasIp = true
    · obtain ⟨h1, h2⟩ := hcols
      subst h1; subst h2
      rw [if_neg (by simp)]
      by_cases hemp : rows.filter hwRowComplete = []
      · rw [if_pos (by simp [hemp, uniqueKeepOrder, uniqueAux])]
        simp [hemp]
      · rw [if_neg ?hne]
        case hne =>
          intro hisEmpty
          have hnil : uniqueKeepOrder ((rows.filter hwRowComplete).filterMap (·.location)) = [] := by
            simpa using hisEmpty
          rw [uniqueKeepOrder_eq_nil] at hnil
          rcases hrows : rows.filter hwRowComplete with _ | ⟨r, rest⟩
          · exact hemp hrows
          · rw [hrows] at hnil
            have hr : hwRowComplete r = true :=
              List.of_mem_filter (by rw [hrows]; exact List.mem_cons_self r rest)
            obtain ⟨x, hx⟩ : ∃ x, r.location = some x := by
              simp only [hwRowComplete, Bool.and_eq_true, Option.isSome_iff_exists] at hr
              exact hr.1
            rw [List.filterMap_cons, hx] at hnil
            exact List.noConfusion hnil
        simp [hemp]
    · rw [if_pos (by cases hasLoc <;> cases hasIp <;> simp_all)]
      exact ⟨fun _ => Or.inl hcols,
        fun _ => ⟨"Location or IP column not found in data file", rfl⟩⟩

/-- C10: `ResponseModel.to_dict` includes the `data` key in the serialized
result iff the `data` field is truthy: a `None` or empty-dict payload
serializes with no `data` key at all, and otherwise the key carries the
payload unchanged; `success` and `message` are always present and
unchanged. -/
theorem C10_to_dict_data_key_iff_truthy (m : ResponseModel) :
    ((m.to_dict).data ≠ none ↔ (m.data ≠ none ∧ m.data ≠ some [])) ∧
    ((m.to_dict).data = m.data ∨ (m.to_dict).data = none) ∧
    (m.to_dict).success = m.success ∧
    (m.to_dict).message = m.message := by
  obtain ⟨suc, msg, data⟩ := m
  rcases data with _ | ⟨_ | ⟨kv, rest⟩⟩ <;>
    simp [ResponseModel.to_dict, pyTruthyData]

/-- C3 (code bug): `reset_port_poe` closes the SSH session only on the
success path.  On the failing input — a remote-session exception raised
after a successful connect — the attempt returns `False` with the session
opened and never closed; the success path does close it. -/
theorem C3_session_left_open_on_failure :
    reset_port_poe (.sessionRaises .protocolError) = (false, ⟨true, false⟩) ∧
    reset_port_poe (.sessionRaises (.other "broken pipe")) = (false, ⟨true, false⟩) ∧
    reset_port_poe .completes = (true, ⟨true, true⟩) := by
  decide

/-- C4 counterexample: `ping_host` (ResetDownOnly.py) is a reachability
probe that returns `True` on exit status alone — here the process exits 0
with output carrying neither a `ttl=` nor an `ms` timing marker, the code's
own output criterion (`pingSuccessOf`) rejects it, yet `ping_host` reports
success — refuting the claim that every probe requires the output
marker. -/
theorem C4_counterexample :
    ping_host (.ran 0 "4 packets transmitted, 4 received, 0% packet loss") = true ∧
    pingSuccessOf 0 "4 packets transmitted, 4 received, 0% packet loss" = false := by
  decide

/-- C4 amended: the API probes (`verify_port_connectivity` and the inline
sweep probe, both of which classify via `pingSuccessOf` on `LC_ALL=C`
output) succeed iff the process exits 0 AND the lower-cased output contains
`ttl=`, or `ms` together with `time=` or `時間=`; timeout and any other
execution error yield failure, not an exception.  `ping_host` of the
standalone routine, by contrast, tests the exit status alone. -/
theorem C4_probe_success_criterion (rc : Int) (out : String) (msg : String) :
    (verify_port_connectivity (.ran rc out) = true ↔
      (rc = 0 ∧ (hasSub "ttl=" (pyLower out) = true ∨
        (hasSub "ms" (pyLower out) = true ∧
          (hasSub "time=" (pyLower out) = true ∨ hasSub "時間=" (pyLower out) = true))))) ∧
    verify_port_connectivity .timedOut = false ∧
    verify_port_connectivity (.raised msg) = false ∧
    (ping_host (.ran rc out) = true ↔ rc = 0) ∧
    ping_host .timedOut = false ∧
    ping_host (.raised msg) = false := by
  refine ⟨?_, rfl, rfl, ?_, rfl, rfl⟩
  · show pingSuccessOf rc out = true ↔ _
    unfold pingSuccessOf
    split_ifs with hc1 hc2 hc3 <;> simp_all
  · show (decide (rc = 0)) = true ↔ rc = 0
    simp

/-- C6: timeout values 0, 301 and non-numeric input are rejected by the
down-only batch as precondition failures — for every environment and every
world the response is the 400 invalid-timeout error with no detail payload
and an empty action trace (no per-target action ran); absent credentials
likewise fail the whole batch with the 500 credentials error, no payload
and no actions; timeouts 1 and 300 are accepted (the batch proceeds and
returns a detail payload). -/
theorem C6_preconditions_reject_bad_timeouts :
    (∀ env w, reset_down_port_only env w { timeout := .int 0 } =
      { success := false, status := 400
        message := "Invalid timeout value. Must be an integer between 1 and 300 seconds"
        data := none, trace := [], sweepSuccesses := [] }) ∧
    (∀ env w, reset_down_port_only env w { timeout := .int 301 } =
      { success := false, status := 400
        message := "Invalid timeout value. Must be an integer between 1 and 300 seconds"
        data := none, trace := [], sweepSuccesses := [] }) ∧
    (∀ env w, reset_down_port_only env w { timeout := .nonNumeric } =
      { success := false, status := 400
        message := "Invalid timeout value. Must be an integer between 1 and 300 seconds"
        data := none, trace := [], sweepSuccesses := [] }) ∧
    (∀ w req t, pyToInt req.timeout = some t → ¬(t ≤ 0 ∨ t > 300) →
      ∀ env, credsOf env = none →
        reset_down_port_only env w req =
          { success := false, status := 500
            message := "SSH credentials not configured. Please set SSH_USERNAME and SSH_PASSWORD in .env file"
            data := none, trace := [], sweepSuccesses := [] }) ∧
    (reset_down_port_only envStd worldTwoResets { timeout := .int 1 }).status ≠ 400 ∧
    (reset_down_port_only envStd worldTwoResets { timeout := .int 1 }).data ≠ none ∧
    (reset_down_port_only envStd worldTwoResets { timeout := .int 300 }).status ≠ 400 ∧
    (reset_down_port_only envStd worldTwoResets { timeout := .int 300 }).data ≠ none := by
  refine ⟨fun env w => rfl, fun env w => rfl, fun env w => rfl, ?_, ?_, ?_, ?_, ?_⟩
  · intro w req t hTo hRange env hCreds
    unfold reset_down_port_only
    rw [hTo]
    dsimp only
    rw [if_neg hRange, hCreds]
  · decide
  · decide
  · decide
  · decide

/-- C6 witness: the credential precondition branch of
`C6_preconditions_reject_bad_timeouts` applied at a concrete request and
credential-less environment. -/
theorem C6_preconditions_witness :
    pyToInt (Request.mk (.int 10)).timeout = some 10 ∧
    ¬((10 : Int) ≤ 0 ∨ (10 : Int) > 300) ∧
    credsOf envNoCreds = none ∧
    reset_down_port_only envNoCreds worldTwoResets { timeout := .int 10 } =
      { success := false, status := 500
        message := "SSH credentials not configured. Please set SSH_USERNAME and SSH_PASSWORD in .env file"
        data := none, trace := [], sweepSuccesses := [] } :=
  ⟨by decide, by decide, by decide,
    C6_preconditions_reject_bad_timeouts.2.2.2.1 worldTwoResets { timeout := .int 10 } 10
      (by decide) (by decide) envNoCreds (by decide)⟩

/-- C1: in a down-only batch run that passes its preconditions and whose
sweep produced at least one successful remediation, the configurable
settling delay (`BATCH_VERIFICATION_DELAY_SECONDS`, default 30) is waited
exactly once for the whole batch, strictly after the full sweep over all
targets and before any verification probe; afterwards every
successfully-remediated target is re-probed exactly once and its record's
outcome is upgraded according to the probe (verified, or still
unreachable). -/
theorem C1_settle_delay_once_after_sweep (env : Env) (w : World) (req : Request)
    (t : Int) (up : String × String) (locations : List String) (dfClean : List HwRow)
    (hTo : pyToInt req.timeout = some t)
    (hRange : ¬(t ≤ 0 ∨ t > 300))
    (hCreds : credsOf env = some up)
    (hDir : get_locations_from_data_file w.hwSource = .ok (locations, dfClean))
    (hSucc : (downOnlySweep w dfClean locations).successes ≠ []) :
    C1DelayConcl env w req locations dfClean := by
  have hrun := reset_down_port_only_eq_pos env w req t up locations dfClean
    hTo hRange hCreds hDir hSucc
  obtain ⟨hall, -, -⟩ := downOnlySweep_spec w dfClean locations
  obtain ⟨hd0, hv0⟩ := all_sweep_no_delay_verify hall
  refine ⟨?_, hd0, hv0, ?_, ?_⟩
  · rw [hrun]
  · rw [hrun]
    simp [List.countP_append, List.countP_cons, isDelayEv, hd0, map_verifyPing_no_delay]
  · rw [hrun]
    rfl

/-- C1 witness: the spec's settle-delay scenario — two successful
remediations and zero failures — run concretely; the sweep indeed yields
exactly 2 successes and 0 failures, and the conclusion of
`C1_settle_delay_once_after_sweep` holds for it. -/
theorem C1_settle_delay_witness :
    (downOnlySweep worldTwoResets
        [⟨some "A", some "10.0.0.1"⟩, ⟨some "B", some "10.0.0.2"⟩]
        ["A", "B"]).successes.length = 2 ∧
    (downOnlySweep worldTwoResets
        [⟨some "A", some "10.0.0.1"⟩, ⟨some "B", some "10.0.0.2"⟩]
        ["A", "B"]).failures = [] ∧
    C1DelayConcl envStd worldTwoResets {} ["A", "B"]
      [⟨some "A", some "10.0.0.1"⟩, ⟨some "B", some "10.0.0.2"⟩] :=
  ⟨by decide, by decide,
    C1_settle_delay_once_after_sweep envStd worldTwoResets {} 10 ("admin", "secret")
      ["A", "B"] [⟨some "A", some "10.0.0.1"⟩, ⟨some "B", some "10.0.0.2"⟩]
      (by decide) (by decide) (by decide) (by rfl) (by decide)⟩

/-- C2 counterexample: a batch whose single target's sweep ping raises
`subprocess.TimeoutExpired` is recorded as down (required remediation) but
gets no remediation attempt at all; the run reports `success = true` even
though no remediation succeeded and a target required remediation, so the
claimed equivalence is false at this input. -/
theorem C2_counterexample :
    ¬ claimBatchSuccessIff (reset_down_port_only envStd worldPingTimeout {}) := by
  intro h
  have h2 := (h { total_checked := 1
                  down_locations := [⟨"A", "10.0.0.9", "ping_timeout"⟩]
                  reset_attempted := []
                  reset_successful := []
                  reset_failed := []
                  not_down := [] } (by decide)).mp (by decide)
  rcases h2 with h2 | h2
  · exact h2 rfl
  · exact List.noConfusion h2

/-- C2 amended: the batch success flag is true iff no per-target failure
was recorded or at least one remediation succeeded; the detail payload
always carries every target's individual outcome; and a batch with at
least one remediation attempt and no success reports `success = false`
with HTTP status 500.  (A target whose probe times out is counted as down
but gets no remediation attempt and no failure record, so it does not by
itself make the batch fail.) -/
theorem C2_batch_success_flag (env : Env) (w : World) (req : Request)
    (t : Int) (up : String × String) (locations : List String) (dfClean : List HwRow)
    (hTo : pyToInt req.timeout = some t)
    (hRange : ¬(t ≤ 0 ∨ t > 300))
    (hCreds : credsOf env = some up)
    (hDir : get_locations_from_data_file w.hwSource = .ok (locations, dfClean)) :
    C2SuccessConcl env w req locations dfClean := by
  obtain ⟨-, hlen, -⟩ := downOnlySweep_spec w dfClean locations
  by_cases hS : (downOnlySweep w dfClean locations).successes = []
  · have hrun := reset_down_port_only_eq_zero env w req t up locations dfClean
      hTo hRange hCreds hDir hS
    refine ⟨_, by rw [hrun], ?_, rfl, rfl, rfl, rfl, rfl, ?_⟩
    · rw [hrun]
      simp [hS, List.isEmpty_iff]
    · intro hAtt hSuc
      have hfne : (downOnlySweep w dfClean locations).failures ≠ [] := by
        intro hf
        rw [hS, hf] at hlen
        simp only [List.length_nil, Nat.add_zero, Nat.le_zero] at hlen
        exact hAtt (List.length_eq_zero.mp hlen)
      rw [hrun]
      simp [hS, hfne, List.isEmpty_iff]
  · have hrun := reset_down_port_only_eq_pos env w req t up locations dfClean
      hTo hRange hCreds hDir hS
    refine ⟨_, by rw [hrun], ?_, rfl, rfl, rfl, rfl, rfl, ?_⟩
    · rw [hrun]
      constructor
      · intro _
        exact Or.inr (by simpa [List.map_eq_nil] using hS)
      · intro _
        simp [List.length_pos, List.map_eq_nil, hS]
    · intro hAtt hSuc
      exact absurd (by simpa [List.map_eq_nil] using hSuc) hS

/-- C2 witness: the amended success-flag property at a concrete run with
two successful remediations. -/
theorem C2_batch_success_witness :
    C2SuccessConcl envStd worldTwoResets {} ["A", "B"]
      [⟨some "A", some "10.0.0.1"⟩, ⟨some "B", some "10.0.0.2"⟩] :=
  C2_batch_success_flag envStd worldTwoResets {} 10 ("admin", "secret")
    ["A", "B"] [⟨some "A", some "10.0.0.1"⟩, ⟨some "B", some "10.0.0.2"⟩]
    (by decide) (by decide) (by decide) (by rfl)

/-- C9 counterexample: after a run in which one remediated target verifies
reachable, the success record produced during the sweep (which carried
`verified := false` at end of sweep) has been mutated in place to
`verified := true`; no unchanged copy of the sweep-time record exists in
the result, so the claim that the original success record is unchanged
after verification is false at this input. -/
theorem C9_counterexample :
    ¬ claimSuccessRecordsUnmutated (reset_down_port_only envStd worldOneVerified {}) := by
  intro h
  have h2 := h { total_checked := 1
                 down_locations := [⟨"A", "10.0.0.1", "unreachable"⟩]
                 reset_attempted := [⟨"A", "10.0.0.1", "5"⟩]
                 reset_successful := [⟨"A", "10.0.0.1", "5", "reset_successful", true⟩]
                 reset_failed := []
                 not_down := [] } (by decide)
  have h3 : (reset_down_port_only envStd worldOneVerified {}).sweepSuccesses =
      [⟨"A", "10.0.0.1", "5", "reset_successful", false⟩] := by decide
  rw [h3] at h2
  exact absurd h2 (by decide)

/-- C9 amended: success records are mutated in place by verification — at
the end of the sweep every success record carries `verified := false`, and
the records in the final payload are exactly those same records with the
`verified` flag overwritten by the verification probe's outcome; the
sweep-time state is not preserved anywhere in the result. -/
theorem C9_success_records_updated_in_place (env : Env) (w : World) (req : Request)
    (t : Int) (up : String × String) (locations : List String) (dfClean : List HwRow)
    (hTo : pyToInt req.timeout = some t)
    (hRange : ¬(t ≤ 0 ∨ t > 300))
    (hCreds : credsOf env = some up)
    (hDir : get_locations_from_data_file w.hwSource = .ok (locations, dfClean)) :
    C9MutationConcl env w req locations dfClean := by
  obtain ⟨-, -, hver⟩ := downOnlySweep_spec w dfClean locations
  by_cases hS : (downOnlySweep w dfClean locations).successes = []
  · have hrun := reset_down_port_only_eq_zero env w req t up locations dfClean
      hTo hRange hCreds hDir hS
    refine ⟨by rw [hrun], ?_, ?_⟩
    · rw [hrun]
      exact hver
    · rw [hrun]
      simp only [hS]
      rfl
  · have hrun := reset_down_port_only_eq_pos env w req t up locations dfClean
      hTo hRange hCreds hDir hS
    refine ⟨by rw [hrun], ?_, ?_⟩
    · rw [hrun]
      exact hver
    · rw [hrun]
      rfl

/-- C9 witness: the in-place-update description at a concrete run with one
verified remediation. -/
theorem C9_mutation_witness :
    C9MutationConcl envStd worldOneVerified {} ["A"] [⟨some "A", some "10.0.0.1"⟩] :=
  C9_success_records_updated_in_place envStd worldOneVerified {} 10 ("admin", "secret")
    ["A"] [⟨some "A", some "10.0.0.1"⟩]
    (by decide) (by decide) (by decide) (by rfl)

/-- C7 counterexample: a readable source with both required columns and
zero complete rows does NOT yield an empty result — the loader returns the
directory-level error "No locations found in data file", and a batch over
that source fails with status 500 and no detail payload instead of
completing trivially with zero processed. -/
theorem C7_counterexample :
    get_locations_from_data_file (HwSource.table true true []) =
      .error "No locations found in data file" ∧
    (reset_down_port_only envStd worldEmptySheet {}).success = false ∧
    (reset_down_port_only envStd worldEmptySheet {}).status = 500 ∧
    (reset_down_port_only envStd worldEmptySheet {}).data = none ∧
    (reset_down_port_only envStd worldEmptySheet {}).message =
      "No locations found in data file" := by
  decide

/-- C7 amended: directory loading fails exactly when the source cannot be
opened, a required column is absent, or zero complete rows remain after
dropping incomplete ones; and a down-only batch run whose other
preconditions pass turns any such directory failure into a whole-batch 500
failure with no per-target detail and no per-target action — it does not
complete trivially on an empty directory. -/
theorem C7_directory_failure_modes :
    (∀ src, (∃ e, get_locations_from_data_file src = .error e) ↔ hwDirectoryFails src) ∧
    (∀ env w req t up msg, pyToInt req.timeout = some t → ¬(t ≤ 0 ∨ t > 300) →
      credsOf env = some up →
      get_locations_from_data_file w.hwSource = .error msg →
      reset_down_port_only env w req =
        { success := false, status := 500, message := msg
          data := none, trace := [], sweepSuccesses := [] }) :=
  ⟨get_locations_error_iff,
    fun env w req t up msg hTo hRange hCreds hDir =>
      reset_down_port_only_eq_direrr env w req t up msg hTo hRange hCreds hDir⟩

/-- C7 witness: the zero-complete-rows directory failure propagated through
a concrete batch run by `C7_directory_failure_modes`. -/
theorem C7_directory_failure_witness :
    reset_down_port_only envStd worldEmptySheet {} =
      { success := false, status := 500, message := "No locations found in data file"
        data := none, trace := [], sweepSuccesses := [] } :=
  C7_directory_failure_modes.2 envStd worldEmptySheet {} 10 ("admin", "secret")
    "No locations found in data file" (by decide) (by decide) (by decide) (by rfl)

/-- C5 counterexample: the input `"1.2.3.456"` contains no well-formed
dotted-quad token (the only in-range quad substring is followed by a word
character), yet extraction does not fail explicitly — the boundary-free
fallback scan returns the best-guess `"1.2.3.45"` — so the claim that
extraction raises on token-free input is false at this input. -/
theorem C5_counterexample : ¬ claimExtractFailsWithoutToken := by
  intro h
  obtain ⟨e, he⟩ := h "1.2.3.456" (by decide)
  rw [show extract_ip_address "1.2.3.456" = .ok "1.2.3.45" from by decide] at he
  exact Except.noConfusion he

/-- C5 amended: for text containing a boundary-delimited well-formed
dotted-quad, extraction returns the first token found by the boundary-aware
scan (e.g. `"BOA1FPOE2 10.12.0.5"` ↦ `"10.12.0.5"`); when no pattern occurs
at all it fails explicitly; every string extraction ever returns is a
well-formed in-range dotted quad — but for some token-free inputs the
boundary-free fallback returns an embedded best-guess (e.g. `"1.2.3.456"` ↦
`"1.2.3.45"`) instead of raising.  A directory record whose address
extraction fails is dropped with a diagnostic (the lookup yields `None`),
not a directory-level failure. -/
theorem C5_extract_first_quad :
    extract_ip_address "BOA1FPOE2 10.12.0.5" = .ok "10.12.0.5" ∧
    extract_ip_address "10.12.0.5:22" = .ok "10.12.0.5" ∧
    extract_ip_address "no address here" =
      .error "No valid IP address found in: no address here" ∧
    extract_ip_address "1.2.3.456" = .ok "1.2.3.45" ∧
    (∀ t s, extract_ip_address t = .ok s → isQuadStr s.data = true ∧ s ≠ "") ∧
    retrieve_ssh_info_from_config
      (.table true [⟨some "A", some "no ip at all", some "ge-0/0/9"⟩]) "A" = .ok none := by
  refine ⟨by decide, by decide, by decide, by decide, ?_, by decide⟩
  intro t s h
  exact extract_ip_address_sound h

/-- C5 witness: the soundness branch of `C5_extract_first_quad` applied to
the concrete noisy-text extraction. -/
theorem C5_extract_witness :
    isQuadStr (String.data "10.12.0.5") = true ∧ ("10.12.0.5" : String) ≠ "" :=
  C5_extract_first_quad.2.2.2.2.1 "BOA1FPOE2 10.12.0.5" "10.12.0.5" (by decide)

/-- C8 counterexample: a Port assignment row whose port descriptor ends in
a path separator (`"x/"`) yields a record whose port identifier is the
empty string — the final path segment of `"x/"` — refuting the claim that
a returned record never carries an empty port identifier. -/
theorem C8_counterexample : ¬ claimNoEmptyPortId portSheetTrailingSlash := by
  intro h
  exact h "A" ⟨"1.2.3.4", 22, ""⟩ (by decide) rfl

/-- C8 amended: every record the Port assignment lookup returns carries a
non-empty, well-formed dotted-quad management address; rows missing any
required field are dropped silently (removing an incomplete row never
changes the result, and no error is raised for it) in both directory
sheets; and the port identifier is the final path segment of the
descriptor (`"ge-0/0/16"` ↦ `"16"`), which is empty when the descriptor
ends with a separator. -/
theorem C8_records_nonempty_address :
    (∀ src loc info, retrieve_ssh_info_from_config src loc = .ok (some info) →
      info.hostname ≠ "" ∧ isQuadStr info.hostname.data = true) ∧
    (∀ hasCols rows r loc, portRowComplete r = false →
      retrieve_ssh_info_from_config (.table hasCols (r :: rows)) loc =
        retrieve_ssh_info_from_config (.table hasCols rows) loc) ∧
    (∀ hl hi rows r, hwRowComplete r = false →
      get_locations_from_data_file (.table hl hi (r :: rows)) =
        get_locations_from_data_file (.table hl hi rows)) ∧
    lastSegment "ge-0/0/16" = "16" ∧
    retrieve_ssh_info_from_config portSheetTrailingSlash "A" =
      .ok (some ⟨"1.2.3.4", 22, ""⟩) := by
  refine ⟨?_, ?_, ?_, by decide, by decide⟩
  · intro src loc info h
    cases src with
    | unreadable m => exact Except.noConfusion h
    | table hasCols rows =>
      simp only [retrieve_ssh_info_from_config] at h
      by_cases hc : (!hasCols) = true
      · rw [if_pos hc] at h
        exact Except.noConfusion h
      · rw [if_neg hc] at h
        rcases hfind : (rows.filter portRowComplete).find? (fun r => r.location = some loc)
          with _ | row
        · simp only [hfind] at h
          exact absurd h (by simp)
        · simp only [hfind] at h
          rcases hip : extract_ip_address (row.sshIp.getD "") with e | ip
          · simp only [hip] at h
            exact absurd h (by simp)
          · simp only [hip] at h
            obtain ⟨hq, hne⟩ := extract_ip_address_sound hip
            have h4 : SSHInfo.mk ip 22 (lastSegment (row.switchPort.getD "")) = info := by
              simpa using h
            rw [← h4]
            exact ⟨hne, hq⟩
  · intro hasCols rows r loc hr
    unfold retrieve_ssh_info_from_config
    simp [List.filter_cons, hr]
  · intro hl hi rows r hr
    unfold get_locations_from_data_file
    simp [List.filter_cons, hr]

/-- C8 witness: the non-empty-address branch of
`C8_records_nonempty_address` at the standard Port assignment sheet. -/
theorem C8_records_witness :
    ("10.1.0.1" : String) ≠ "" ∧ isQuadStr (String.data "10.1.0.1") = true :=
  C8_records_nonempty_address.1 portSheetStd "A" ⟨"10.1.0.1", 22, "5"⟩ (by decide)

/-- C4 witness: the probe success criterion instantiated at a concrete
exit-code-0 run with a `ttl=` marker. -/
theorem C4_probe_witness :
    (verify_port_connectivity (.ran 0 "64 bytes: ttl=64") = true ↔
      ((0 : Int) = 0 ∧ (hasSub "ttl=" (pyLower "64 bytes: ttl=64") = true ∨
        (hasSub "ms" (pyLower "64 bytes: ttl=64") = true ∧
          (hasSub "time=" (pyLower "64 bytes: ttl=64") = true ∨
            hasSub "時間=" (pyLower "64 bytes: ttl=64") = true))))) ∧
    verify_port_connectivity .timedOut = false ∧
    verify_port_connectivity (.raised "boom") = false ∧
    (ping_host (.ran 0 "64 bytes: ttl=64") = true ↔ (0 : Int) = 0) ∧
    ping_host .timedOut = false ∧
    ping_host (.raised "boom") = false :=
  C4_probe_success_criterion 0 "64 bytes: ttl=64" "boom"

/-- C10 witness: the serialization rule instantiated at a concrete model
with a non-empty payload. -/
theorem C10_to_dict_witness :
    ((ResponseModel.to_dict ⟨true, "ok", some [("status", .str "ok")]⟩).data ≠ none ↔
      ((some [("status", PyVal.str "ok")] : Option PyDict) ≠ none ∧
       (some [("status", PyVal.str "ok")] : Option PyDict) ≠ some [])) ∧
    ((ResponseModel.to_dict ⟨true, "ok", some [("status", .str "ok")]⟩).data =
        some [("status", PyVal.str "ok")] ∨
      (ResponseModel.to_dict ⟨true, "ok", some [("status", .str "ok")]⟩).data = none) ∧
    (ResponseModel.to_dict ⟨true, "ok", some [("status", .str "ok")]⟩).success = true ∧
    (ResponseModel.to_dict ⟨true, "ok", some [("status", .str "ok")]⟩).message = "ok" :=
  C10_to_dict_data_key_iff_truthy ⟨true, "ok", some [("status", .str "ok")]⟩

end Gnet
